import Mathlib

/-!
Verification of the SC Market image lambda conversion/moderation pipeline.

The development shallowly embeds the TypeScript sources:
`src/utils/image_processor.ts` (class `ImageProcessor`),
`src/clients/rekognition.ts` (class `RekognitionClient`, together with the
hybrid variant of the same class found in the repository), and the lambda
`handler` in `src/index.ts`.

External collaborators (the sharp codec, S3 staging, Rekognition, and the
Backblaze S3 endpoint) are modelled as oracles: each fallible external call
takes its outcome from an environment record, and every stateful function
returns, next to its result, the ordered list of external calls it issued,
so that temporal claims (who was invoked, how many times) become trace
properties.
-/

namespace ImageLambda

/-- Byte buffers are modelled as lists of bytes. -/
abbrev Buffer := List Nat

/-- Whether `pat` occurs as a contiguous substring of `s` (JS `String.includes`). -/
def listContainsSub (s pat : List Char) : Bool :=
  match s with
  | [] => pat.isEmpty
  | _ :: rest => pat.isPrefixOf s || listContainsSub rest pat

/-- Substring containment on strings (JS `String.includes`). -/
def containsSub (s pat : String) : Bool :=
  listContainsSub s.data pat.data

/-- Replace the first occurrence of `pat` in `s` by `repl`; identity when `pat`
does not occur (JS `String.replace` with a string pattern). -/
def listReplaceFirst (s pat repl : List Char) : List Char :=
  match s with
  | [] => if pat.isEmpty then repl else []
  | c :: rest =>
    if pat.isPrefixOf s then repl ++ s.drop pat.length
    else c :: listReplaceFirst rest pat repl

/-- String version of `listReplaceFirst`. -/
def replaceFirst (s pat repl : String) : String :=
  String.mk (listReplaceFirst s.data pat.data repl.data)

/-- ASCII lower-casing (JS `String.toLowerCase` on the inputs we model). -/
def toLowerStr (s : String) : String :=
  String.mk (s.data.map Char.toLower)

/-- Embedding of the `ImageProcessorError` exception class: a status code, a
machine-readable error type, and a human-readable message. -/
structure ImageProcessorError where
  statusCode : Nat
  errorType : String
  message : String
deriving DecidableEq, Repr

namespace ImageProcessor

/-- Source constant `SUPPORTED_FORMATS`. -/
def SUPPORTED_FORMATS : List String := ["webp", "jpg", "jpeg", "png"]

/-- Source constant `REKOGNITION_COMPATIBLE_FORMATS`. -/
def REKOGNITION_COMPATIBLE_FORMATS : List String := ["jpeg", "png"]

/-- Source constant `MAX_IMAGE_DIMENSION`. -/
def MAX_IMAGE_DIMENSION : Nat := 8192

/-- Embedding of `ImageProcessor.extractFormatFromContentType`: lower-case,
then delete the first occurrence of the substring `image/`. -/
def extractFormatFromContentType (contentType : String) : String :=
  replaceFirst (toLowerStr contentType) "image/" ""

/-- Embedding of `ImageProcessor.isSupportedFormat`. -/
def isSupportedFormat (contentType : String) : Bool :=
  SUPPORTED_FORMATS.contains (extractFormatFromContentType contentType)

/-- Embedding of `ImageProcessor.getMimeType`. -/
def getMimeType (format : String) : String :=
  if format == "webp" then "image/webp"
  else if format == "jpg" then "image/jpeg"
  else if format == "jpeg" then "image/jpeg"
  else if format == "png" then "image/png"
  else "image/jpeg"

/-- Result record of the two boundary conversions:
`{ buffer, format, converted }`. -/
structure ConversionResult where
  buffer : Buffer
  format : String
  converted : Bool
deriving DecidableEq, Repr

/-- Embedding of the catch clause of `ImageProcessor.instantiateSharpImage`:
classify the message of an underlying decode-time error into an
`ImageProcessorError`, in the priority order written in the source. -/
def classifyInstantiationError (msg : String) : ImageProcessorError :=
  if containsSub msg "memory" ||
      (containsSub msg "buffer" &&
        !containsSub msg "unsupported image format" &&
        !containsSub msg "Input buffer contains unsupported image format") then
    ⟨413, "MemoryLimitExceeded",
      "Image is too large to process in 24MB Lambda environment. Please reduce image size and try again."⟩
  else if containsSub msg "pixel" || containsSub msg "dimension" then
    ⟨413, "ImageTooLarge",
      "Image dimensions are too large for 24MB Lambda environment. Please reduce image dimensions and try again."⟩
  else if containsSub msg "unsupported image format" ||
      containsSub msg "Input buffer contains unsupported image format" then
    ⟨400, "InvalidImageFormat",
      "The provided data is not a valid image format. Please ensure you are uploading a valid image file."⟩
  else
    ⟨400, "InstantiationError",
      "Input image could not be instantiated. Please choose a valid image."⟩

/-- Embedding of the error mapping shared by the catch clauses of
`ImageProcessor.convertToWebPIfNeeded` and `ImageProcessor.convertToWebP`
for underlying (non-`ImageProcessorError`) failures during webp encoding. -/
def classifyWebPConversionError (msg : String) : ImageProcessorError :=
  if containsSub msg "memory" || containsSub msg "buffer" then
    ⟨413, "MemoryLimitExceeded",
      "Image is too large to convert to WebP in 24MB Lambda environment. Please reduce image size and try again."⟩
  else if containsSub msg "timeout" || containsSub msg "timed out" then
    ⟨408, "ProcessingTimeout",
      "Image conversion timed out. Please try with a smaller image."⟩
  else
    ⟨500, "WebPConversionError", "Failed to convert image to WebP format."⟩

/-- A memory/buffer-capacity failure signal at decode time, as the source
tests it: the message mentions `memory`, or mentions `buffer` without being
an unrecognized-format message. -/
def memorySignalAtDecode (msg : String) : Bool :=
  containsSub msg "memory" ||
    (containsSub msg "buffer" &&
      !containsSub msg "unsupported image format" &&
      !containsSub msg "Input buffer contains unsupported image format")

/-- A pixel/dimension failure signal: the message mentions `pixel` or
`dimension`. -/
def pixelSignal (msg : String) : Bool :=
  containsSub msg "pixel" || containsSub msg "dimension"

/-- An unrecognized-byte failure signal: the message mentions an unsupported
image format. -/
def unrecognizedSignal (msg : String) : Bool :=
  containsSub msg "unsupported image format" ||
    containsSub msg "Input buffer contains unsupported image format"

/-- A memory/buffer failure signal during webp conversion: the message
mentions `memory` or `buffer` (no format-message exclusion here). -/
def memorySignalAtConversion (msg : String) : Bool :=
  containsSub msg "memory" || containsSub msg "buffer"

/-- A timeout failure signal during webp conversion. -/
def timeoutSignal (msg : String) : Bool :=
  containsSub msg "timeout" || containsSub msg "timed out"

/-- A failure raised by an inner conversion call: either an already-typed
`ImageProcessorError` (rethrown as is by `convertToWebPIfNeeded`), or a raw
underlying error message still to be classified. -/
inductive ConvFailure where
  | typed (e : ImageProcessorError)
  | raw (msg : String)
deriving DecidableEq, Repr

/-- Embedding of `ImageProcessor.convertToRekognitionCompatible`.
The outcome of the inner `convertToPNG` codec call is the oracle `pngConv`.
If the extracted format is already in `REKOGNITION_COMPATIBLE_FORMATS` the
original buffer is returned unconverted; otherwise the png conversion runs
and any failure of it is wrapped into `RekognitionCompatibilityError`. -/
def convertToRekognitionCompatible (pngConv : Except ConvFailure Buffer)
    (imageBuffer : Buffer) (contentType : String) :
    Except ImageProcessorError ConversionResult :=
  if REKOGNITION_COMPATIBLE_FORMATS.contains (extractFormatFromContentType contentType) then
    .ok ⟨imageBuffer, extractFormatFromContentType contentType, false⟩
  else
    match pngConv with
    | .ok pngBuffer => .ok ⟨pngBuffer, "png", true⟩
    | .error _ =>
      .error ⟨500, "RekognitionCompatibilityError",
        "Failed to convert image to Rekognition compatible format."⟩

/-- Embedding of `ImageProcessor.convertToWebPIfNeeded`.
The outcome of the inner `convertToWebP` codec call is the oracle
`webpConv`. A `webp` input is passed through unconverted; otherwise the webp
conversion runs, a typed `ImageProcessorError` from it is rethrown
unchanged, and a raw failure is classified by `classifyWebPConversionError`. -/
def convertToWebPIfNeeded (webpConv : Except ConvFailure Buffer)
    (imageBuffer : Buffer) (contentType : String) :
    Except ImageProcessorError ConversionResult :=
  if extractFormatFromContentType contentType == "webp" then
    .ok ⟨imageBuffer, "webp", false⟩
  else
    match webpConv with
    | .ok webpBuffer => .ok ⟨webpBuffer, "webp", true⟩
    | .error (.typed e) => .error e
    | .error (.raw msg) => .error (classifyWebPConversionError msg)

/-- The options record handed to the sharp webp encoder. Optional fields are
`none` when the call site does not set them (sharp then applies its own
defaults). -/
structure WebpOptions where
  quality : Nat
  effort : Option Nat
  smartSubsample : Option Bool
  lossless : Option Bool
  nearLossless : Option Bool
deriving DecidableEq, Repr

/-- Embedding of the options that `ImageProcessor.convertToWebP` passes to the
sharp webp encoder: the source calls `sharpInstance.webp({ quality: 80 })`,
independently of the input buffer. -/
def convertToWebP_options (imageBuffer : Buffer) : WebpOptions :=
  ⟨80, none, none, none, none⟩

/-- Modelled from the spec: the compression profile that §4.3 (and the
repository document COMPRESSION_AND_SAFETY.md) describe for the storage-stage
webp re-encode — quality 80 / effort 4 with smart subsampling for the
standard profile, switching to quality 75 / effort 5 for inputs whose
original byte length exceeds 1 MiB. This profile does not appear in
`src/utils/image_processor.ts`; it is embedded here only to be compared
against `convertToWebP_options`. -/
def claimedWebpOptions (imageBuffer : Buffer) : WebpOptions :=
  if 1024 * 1024 < imageBuffer.length then
    ⟨75, some 5, some true, some false, some false⟩
  else
    ⟨80, some 4, some true, some false, some false⟩

end ImageProcessor

/-- A moderation or object label returned by Rekognition: a name and a
confidence score (the source reads `label.Name || ''` and
`label.Confidence || 0`, so a missing name is the empty string and a missing
confidence is 0). -/
structure ModLabel where
  name : String
  confidence : Rat
deriving DecidableEq, Repr

/-- Embedding of the `ContentModerationResult` interface. -/
structure ContentModerationResult where
  passed : Bool
  moderationLabels : List String
  confidence : Rat
  error : Option String
deriving DecidableEq, Repr

namespace RekognitionClient

/-- Source constant `explicitContentLabels` in
`src/clients/rekognition.ts` — note that it contains `Violence`. -/
def explicitContentLabels : List String :=
  ["Explicit Nudity", "Violence", "Visually Disturbing", "Hate Symbols",
   "Gambling", "Drugs", "Tobacco", "Alcohol", "Rude Gestures", "Adult Content"]

/-- Source constant `blockedContentLabels` in the hybrid variant of
`RekognitionClient.scanImageForModeration` — `Violence` and `Weapons` are
deliberately absent. -/
def blockedContentLabels : List String :=
  ["Explicit Nudity", "Visually Disturbing", "Hate Symbols", "Gambling",
   "Drugs", "Tobacco", "Alcohol", "Rude Gestures", "Adult Content"]

/-- The `reduce`-with-`Math.max` fold computing the maximum confidence over
the returned moderation labels, starting from 0. -/
def maxConfidence (labels : List ModLabel) : Rat :=
  labels.foldl (fun mx l => max mx l.confidence) 0

/-- Embedding of the `hasExplicitContent` check of
`src/clients/rekognition.ts`: some returned moderation label whose name is
in `explicitContentLabels` has confidence at least 70. -/
def hasExplicitContent (labels : List ModLabel) : Bool :=
  labels.any fun l =>
    explicitContentLabels.contains l.name && decide (70 ≤ l.confidence)

/-- Embedding of the `hasInappropriateContent` check of the hybrid variant:
some returned moderation label whose name is in `blockedContentLabels` has
confidence at least 70. -/
def hasInappropriateContent (moderationLabels : List ModLabel) : Bool :=
  moderationLabels.any fun l =>
    blockedContentLabels.contains l.name && decide (70 ≤ l.confidence)

/-- Embedding of the `weaponLabels` filter of the hybrid variant (computed
from the object-detection labels, used only for logging). -/
def weaponLabels (objectLabels : List ModLabel) : List ModLabel :=
  objectLabels.filter fun l =>
    ["Weapon", "Gun", "Firearm", "Rifle", "Knife", "Sword", "Ammunition"].contains l.name
      && decide (50 ≤ l.confidence)

/-- Embedding of the `combatLabels` filter of the hybrid variant (computed
from the object-detection labels, used only for logging). -/
def combatLabels (objectLabels : List ModLabel) : List ModLabel :=
  objectLabels.filter fun l =>
    ["Combat", "War", "Military", "Armor", "Shield"].contains l.name
      && decide (50 ≤ l.confidence)

/-- Embedding of the final decision of the hybrid variant: the source sets
`const hasExplicitContent = hasInappropriateContent;` — the object labels
(weapons, combat) are logged but do not enter the verdict. -/
def hybridHasExplicitContent (moderationLabels objectLabels : List ModLabel) : Bool :=
  hasInappropriateContent moderationLabels

/-- The name list placed into the returned verdict:
`.map(label => label.Name || '').filter(Boolean)`. -/
def verdictLabelNames (labels : List ModLabel) : List String :=
  (labels.map (·.name)).filter (fun s => !(s == ""))

/-- One external call issued by the pipeline, in issue order. -/
inductive Event where
  | s3Put (key : String) (body : Buffer)
  | rekDetectModeration (key : String)
  | s3Delete (key : String)
  | backblazePut (key : String) (body : Buffer) (contentType : String)
deriving DecidableEq, Repr

/-- Outcomes of the external calls made by
`RekognitionClient.scanImageForModeration`: `none` means the call returned
normally, `some msg` that it threw an error with message `msg`. -/
structure ScanEnv where
  putResult : Option String
  detectResult : Except String (List ModLabel)
  deleteResult : Option String
  cleanupDeleteResult : Option String
deriving Repr

/-- The verdict built by the catch clause of `scanImageForModeration`:
`passed: false` with the error message attached. -/
def scanErrorResult (msg : String) : ContentModerationResult :=
  ⟨false, [], 0, some msg⟩

/-- Embedding of `RekognitionClient.scanImageForModeration`
(`src/clients/rekognition.ts`), for the deployed situation in which the
handler has already converted the buffer to a scan-compatible format, so the
pre-staging png-conversion branch is not taken. Returns the verdict together
with the ordered trace of external calls. The catch clause attempts one
cleanup delete whose own failure is swallowed (`cleanupDeleteResult` is
therefore unobservable in the result). -/
def scanImageForModeration (env : ScanEnv) (tempKey : String)
    (imageBuffer : Buffer) : ContentModerationResult × List Event :=
  match env.putResult with
  | some msg =>
    (scanErrorResult msg, [.s3Put tempKey imageBuffer, .s3Delete tempKey])
  | none =>
    match env.detectResult with
    | .error msg =>
      (scanErrorResult msg,
       [.s3Put tempKey imageBuffer, .rekDetectModeration tempKey, .s3Delete tempKey])
    | .ok labels =>
      match env.deleteResult with
      | some msg =>
        (scanErrorResult msg,
         [.s3Put tempKey imageBuffer, .rekDetectModeration tempKey,
          .s3Delete tempKey, .s3Delete tempKey])
      | none =>
        (⟨!hasExplicitContent labels, verdictLabelNames labels,
          maxConfidence labels, none⟩,
         [.s3Put tempKey imageBuffer, .rekDetectModeration tempKey,
          .s3Delete tempKey])

/-- Whether the verdict returned by `scanImageForModeration` has
`passed = true`; it depends only on the environment. -/
def scanVerdictPassed (env : ScanEnv) : Bool :=
  match env.putResult with
  | some _ => false
  | none =>
    match env.detectResult with
    | .error _ => false
    | .ok labels =>
      match env.deleteResult with
      | some _ => false
      | none => !hasExplicitContent labels

/-- Number of staged-object delete calls in a trace. -/
def countDeletes (events : List Event) : Nat :=
  events.countP fun e =>
    match e with
    | .s3Delete _ => true
    | _ => false

end RekognitionClient

/-- Helper for the filename-extension rewrite: given the reversed character
list of a filename, return `some rest` when the JS pattern `\.[^/.]+$`
matches — `rest` is the reversed part before the matched dot — and `none`
when it does not (no dot, a trailing dot, or a slash or second dot inside
the candidate extension). -/
def revExtOf (rev : List Char) : Option (List Char) :=
  let e := rev.takeWhile fun c => !(c == '.') && !(c == '/')
  match rev.drop e.length with
  | '.' :: rest => if e.isEmpty then none else some rest
  | _ => none

/-- Embedding of `body.filename.replace(/\.[^/.]+$/, '.webp')` in the
handler: rewrite the final extension to `.webp` when the pattern matches,
and return the filename unchanged otherwise. -/
def replaceExtWithWebp (s : String) : String :=
  match revExtOf s.data.reverse with
  | some rest => String.mk (rest.reverse ++ ".webp".data)
  | none => s

/-- Whether the handler's extension pattern matches the filename at all. -/
def hasFileExtension (s : String) : Bool :=
  (revExtOf s.data.reverse).isSome

/-- Whether a filename ends in the characters `.webp`. -/
def endsWithWebp (s : String) : Bool :=
  ".webp".data.isSuffixOf s.data

namespace Handler

open ImageProcessor RekognitionClient

/-- Embedding of the `UploadRequest` body: each field is `none` when absent
from the request JSON. -/
structure UploadRequest where
  imageData : Option String
  filename : Option String
  contentType : Option String
deriving Repr

/-- JS falsiness of an optional string field: absent or the empty string. -/
def strFalsy : Option String → Bool
  | none => true
  | some s => s == ""

/-- The effective content type: `body.contentType || 'image/jpeg'`. -/
def effectiveContentType (body : UploadRequest) : String :=
  match body.contentType with
  | some s => if s == "" then "image/jpeg" else s
  | none => "image/jpeg"

/-- The `data` payload of a lambda response, restricted to the fields the
source actually serializes. -/
inductive RespData where
  | noData
  | sizeInfo (sizeBytes maxSizeBytes : Nat)
  | moderation (moderationLabels : List String) (confidence : Rat)
  | uploaded (filename backblazeUrl originalFormat finalFormat : String)
      (confidence : Rat)
deriving DecidableEq, Repr

/-- Embedding of the serialized `LambdaResponse` together with the HTTP
status code of the `APIGatewayProxyResult`. -/
structure LambdaResponse where
  statusCode : Nat
  success : Bool
  message : String
  error : Option String
  data : RespData
deriving DecidableEq, Repr

/-- The response built by the handler's outer catch clause. -/
def internalErrorResponse : LambdaResponse :=
  ⟨500, false, "Internal server error", some "INTERNAL_ERROR", .noData⟩

/-- Source constant `maxSizeBytes` (2 MiB). -/
def maxSizeBytes : Nat := 2 * 1024 * 1024

/-- Outcomes of every external call the handler can issue, plus the pure
collaborators (base64 decoding, key generation, CDN base address). -/
structure HandlerEnv where
  decode : String → Buffer
  pngConv : Except ConvFailure Buffer
  scanEnv : ScanEnv
  tempKey : String
  webpConv : Except ConvFailure Buffer
  backblazePutResult : Option String
  cdnUrl : String

/-- Embedding of the lambda `handler` in `src/index.ts`, returning the
response and the ordered trace of external calls: field validation, format
validation, size validation, the moderation scan (conversion to a
scan-compatible format, then `RekognitionClient.scanImageForModeration`),
the `MODERATION_FAILED` short-circuit, and only past it the storage-side
conversion and the Backblaze `putObject`. A thrown `ImageProcessorError` or
Backblaze failure reaches the outer catch and becomes
`internalErrorResponse`. -/
def handler (env : HandlerEnv) (body : UploadRequest) :
    LambdaResponse × List Event :=
  if strFalsy body.imageData || strFalsy body.filename then
    (⟨400, false, "Missing required fields: imageData and filename",
      some "VALIDATION_ERROR", .noData⟩, [])
  else if !isSupportedFormat (effectiveContentType body) then
    (⟨400, false,
      "Unsupported image format: " ++ effectiveContentType body ++
        ". Only webp, jpg, and png are supported.",
      some "UNSUPPORTED_FORMAT", .noData⟩, [])
  else if maxSizeBytes < (env.decode (body.imageData.getD "")).length then
    (⟨400, false, "Image file size too large. Maximum allowed size is 2MB.",
      some "FILE_TOO_LARGE",
      .sizeInfo (env.decode (body.imageData.getD "")).length maxSizeBytes⟩, [])
  else
    match convertToRekognitionCompatible env.pngConv
        (env.decode (body.imageData.getD "")) (effectiveContentType body) with
    | .error _ => (internalErrorResponse, [])
    | .ok rekImage =>
      if !(scanImageForModeration env.scanEnv env.tempKey rekImage.buffer).1.passed then
        (⟨400, false, "Image failed moderation checks", some "MODERATION_FAILED",
          .moderation
            (scanImageForModeration env.scanEnv env.tempKey rekImage.buffer).1.moderationLabels
            (scanImageForModeration env.scanEnv env.tempKey rekImage.buffer).1.confidence⟩,
         (scanImageForModeration env.scanEnv env.tempKey rekImage.buffer).2)
      else
        match convertToWebPIfNeeded env.webpConv
            (env.decode (body.imageData.getD "")) (effectiveContentType body) with
        | .error _ =>
          (internalErrorResponse,
           (scanImageForModeration env.scanEnv env.tempKey rekImage.buffer).2)
        | .ok webpImage =>
          match env.backblazePutResult with
          | some _ =>
            (internalErrorResponse,
             (scanImageForModeration env.scanEnv env.tempKey rekImage.buffer).2
               ++ [Event.backblazePut (replaceExtWithWebp (body.filename.getD ""))
                    webpImage.buffer (getMimeType webpImage.format)])
          | none =>
            (⟨200, true, "Image successfully processed and uploaded", none,
              .uploaded (replaceExtWithWebp (body.filename.getD ""))
                (env.cdnUrl ++ "/" ++ replaceExtWithWebp (body.filename.getD ""))
                (extractFormatFromContentType (effectiveContentType body)) "webp"
                (scanImageForModeration env.scanEnv env.tempKey rekImage.buffer).1.confidence⟩,
             (scanImageForModeration env.scanEnv env.tempKey rekImage.buffer).2
               ++ [Event.backblazePut (replaceExtWithWebp (body.filename.getD ""))
                    webpImage.buffer (getMimeType webpImage.format)])

/-- Whether a trace contains a Backblaze upload call. -/
def hasBackblazePut (events : List Event) : Bool :=
  events.any fun e =>
    match e with
    | .backblazePut _ _ _ => true
    | _ => false

end Handler

section Theorems

open ImageProcessor RekognitionClient Handler

/-- The blocked-label list of `src/clients/rekognition.ts` is the hybrid
variant's list extended by exactly the `Violence` category. -/
theorem contains_explicit_eq (s : String) :
    explicitContentLabels.contains s
      = (blockedContentLabels.contains s || s == "Violence") := by
  simp only [explicitContentLabels, blockedContentLabels, List.contains_cons,
    List.contains_nil, Bool.or_false]
  cases h : s == "Violence" <;>
    simp [h, Bool.or_comm, Bool.or_assoc, Bool.or_left_comm]

/-- The verdict field `passed` of the scan depends only on the environment. -/
theorem scan_passed_eq (env : ScanEnv) (tempKey : String) (b : Buffer) :
    (scanImageForModeration env tempKey b).1.passed = scanVerdictPassed env := by
  unfold scanImageForModeration scanVerdictPassed scanErrorResult
  cases env.putResult <;> [skip; rfl]
  cases env.detectResult <;> [rfl; skip]
  cases env.deleteResult <;> [rfl; rfl]

/-- The trace of the moderation scan never contains a Backblaze upload. -/
theorem scan_no_backblaze (env : ScanEnv) (tempKey : String) (b : Buffer) :
    hasBackblazePut (scanImageForModeration env tempKey b).2 = false := by
  unfold scanImageForModeration
  cases env.putResult <;> [skip; rfl]
  cases env.detectResult <;> [rfl; skip]
  cases env.deleteResult <;> [rfl; rfl]

/-- C2 (counterexample): when staging and the Rekognition detect call
succeed but the success-path delete of the transient object itself fails,
the staged object's delete operation is invoked twice, not exactly once. -/
theorem C2_cx_delete_invoked_twice :
    countDeletes (scanImageForModeration
      ⟨none, .ok [], some "delete failed", none⟩ "temp-key" []).2 = 2 := by
  rfl

/-- C2 (amended): on every moderation-scan outcome the transient object's
delete is invoked at least once, and exactly once except on the outcome in
which staging and detection succeeded and the success-path delete itself
failed — there a second cleanup delete is attempted, for two invocations. -/
theorem C2_delete_always_invoked (env : ScanEnv) (tempKey : String) (b : Buffer) :
    countDeletes (scanImageForModeration env tempKey b).2
      = (match env.putResult, env.detectResult, env.deleteResult with
         | none, .ok _, some _ => 2
         | _, _, _ => 1) := by
  unfold scanImageForModeration
  cases hp : env.putResult <;> cases hd : env.detectResult <;>
    cases hdel : env.deleteResult <;> rfl

/-- C3 (counterexample): staging and detection succeed with no disallowed
label, so the verdict would be `passed = true`; the success-path delete then
fails, and the scan returns `passed = false` with the delete error attached
instead of the pass verdict — the cleanup failure is escalated and flips
the verdict. -/
theorem C3_cx_cleanup_failure_flips_pass :
    (scanImageForModeration
      ⟨none, .ok [], some "delete failed", none⟩ "temp-key" []).1
      = ⟨false, [], 0, some "delete failed"⟩ := by
  rfl

/-- C3 (amended): when staging and detection succeed and no disallowed label
reaches the threshold, the scan returns the pass verdict only if the
success-path delete also succeeds; if that delete fails, the scan returns
`passed = false` carrying the delete failure as its error (fail closed). A
failure of the error-path cleanup delete, by contrast, is never escalated:
the result does not depend on `cleanupDeleteResult` at all. -/
theorem C3_cleanup_failure_behaviour (env : ScanEnv) (tempKey : String)
    (b : Buffer) (labels : List ModLabel)
    (hput : env.putResult = none) (hdet : env.detectResult = .ok labels)
    (hlab : hasExplicitContent labels = false) :
    (env.deleteResult = none →
      (scanImageForModeration env tempKey b).1
        = ⟨true, verdictLabelNames labels, maxConfidence labels, none⟩)
    ∧ (∀ m, env.deleteResult = some m →
        (scanImageForModeration env tempKey b).1 = scanErrorResult m)
    ∧ (∀ c, scanImageForModeration ⟨env.putResult, env.detectResult,
        env.deleteResult, c⟩ tempKey b = scanImageForModeration env tempKey b) := by
  refine ⟨?_, ?_, ?_⟩
  · intro hdel
    unfold scanImageForModeration
    rw [hput, hdet, hdel]
    simp [hlab]
  · intro m hdel
    unfold scanImageForModeration
    rw [hput, hdet, hdel]
  · intro c
    unfold scanImageForModeration
    rfl

/-- C3 (witness): a concrete run in which the verdict computation passes and
the success-path delete fails, instantiating the amended theorem. -/
theorem C3_cleanup_failure_behaviour_witness :
    (scanImageForModeration
      ⟨none, .ok [⟨"Rude Gestures", 42⟩], some "network reset", none⟩
      "temp-key" [7]).1 = scanErrorResult "network reset" :=
  (C3_cleanup_failure_behaviour
    ⟨none, .ok [⟨"Rude Gestures", 42⟩], some "network reset", none⟩
    "temp-key" [7] [⟨"Rude Gestures", 42⟩] rfl rfl (by decide)).2.1
    "network reset" rfl

/-- C4 (counterexample): a verdict whose only moderation label is
`Violence` at confidence 91 is rejected by
`src/clients/rekognition.ts` (`passed = false`), although `Violence` is not
one of the nine DisallowedSet categories. -/
theorem C4_cx_violence_rejects :
    (scanImageForModeration
      ⟨none, .ok [⟨"Violence", 91⟩], none, none⟩ "temp-key" []).1.passed = false
    ∧ blockedContentLabels.contains "Violence" = false := by
  constructor <;> rfl

/-- C4 (amended): in the hybrid variant of the moderation decision, the
object-detection labels (weapons, combat) never influence the verdict and a
moderation label causes rejection exactly when it belongs to the nine
DisallowedSet categories with confidence at least 70; in the
`src/clients/rekognition.ts` variant the blocked list additionally contains
`Violence`, so a `Violence` label at or above the threshold also causes
rejection by itself. -/
theorem C4_disallowed_set_calibration (mlabels olabels : List ModLabel) :
    hybridHasExplicitContent mlabels olabels
      = mlabels.any (fun l =>
          blockedContentLabels.contains l.name && decide (70 ≤ l.confidence))
    ∧ hasExplicitContent mlabels
      = mlabels.any (fun l =>
          (blockedContentLabels.contains l.name || l.name == "Violence")
            && decide (70 ≤ l.confidence)) := by
  constructor
  · rfl
  · unfold hasExplicitContent
    congr 1
    funext l
    rw [contains_explicit_eq]

/-- C7: the decode-time error classifier picks the error kind in priority
order — memory/buffer-capacity signals map to `MemoryLimitExceeded`, then
pixel/dimension signals to `ImageTooLarge`, then unrecognized-byte signals
to `InvalidImageFormat`, and any other decode failure to
`InstantiationError`; during webp conversion, memory/buffer signals map to
`MemoryLimitExceeded`, then timeout signals to `ProcessingTimeout`, and
anything else to `WebPConversionError`. -/
theorem C7_error_classifier_priority (msg : String) :
    (classifyInstantiationError msg).errorType
      = (if memorySignalAtDecode msg then "MemoryLimitExceeded"
         else if pixelSignal msg then "ImageTooLarge"
         else if unrecognizedSignal msg then "InvalidImageFormat"
         else "InstantiationError")
    ∧ (classifyWebPConversionError msg).errorType
      = (if memorySignalAtConversion msg then "MemoryLimitExceeded"
         else if timeoutSignal msg then "ProcessingTimeout"
         else "WebPConversionError") := by
  constructor
  · unfold classifyInstantiationError memorySignalAtDecode pixelSignal unrecognizedSignal
    split_ifs <;> rfl
  · unfold classifyWebPConversionError memorySignalAtConversion timeoutSignal
    split_ifs <;> rfl

/-- C8: evaluation of the storage-stage webp encoder options at a 1 MiB + 1
byte input. The source always passes only `quality: 80`; the documented
profile (quality 80 / effort 4, switching to quality 75 / effort 5 above
1 MiB) would pass different options at that input, so the claimed
aggressive-compression switch is absent from the code. -/
theorem C8_webp_options_at_large_input :
    convertToWebP_options (List.replicate (1024 * 1024 + 1) 0)
      = ⟨80, none, none, none, none⟩
    ∧ claimedWebpOptions (List.replicate (1024 * 1024 + 1) 0)
      = ⟨75, some 5, some true, some false, some false⟩
    ∧ convertToWebP_options (List.replicate (1024 * 1024 + 1) 0)
      ≠ claimedWebpOptions (List.replicate (1024 * 1024 + 1) 0) := by
  have h2 : claimedWebpOptions (List.replicate (1024 * 1024 + 1) 0)
      = ⟨75, some 5, some true, some false, some false⟩ := by
    unfold claimedWebpOptions
    rw [List.length_replicate, if_pos (by norm_num)]
  have h1 : convertToWebP_options (List.replicate (1024 * 1024 + 1) 0)
      = ⟨80, none, none, none, none⟩ := rfl
  refine ⟨h1, h2, ?_⟩
  rw [h1, h2]
  decide

/-- C5 (counterexample): the declared content type `image/jpg` extracts to
the format tag `jpg`, which is not in `REKOGNITION_COMPATIBLE_FORMATS`, so
`convertToRekognitionCompatible` converts it to png (`converted = true`,
png-conversion output buffer) instead of passing the identical buffer
through with `converted = false`. -/
theorem C5_cx_jpg_is_converted :
    extractFormatFromContentType "image/jpg" = "jpg"
    ∧ convertToRekognitionCompatible (.ok [2, 3]) [1] "image/jpg"
      = .ok ⟨[2, 3], "png", true⟩ :=
  ⟨rfl, rfl⟩

/-- C5 (amended): the scan-compatible format tags are exactly `jpeg` and
`png` — the `jpg` spelling is not among them. For inputs whose extracted
format is `jpeg` or `png` the identical buffer is returned with
`converted = false`; for every other input (including `jpg` and `webp`) the
png-conversion output is returned with format tag `png` and
`converted = true`. -/
theorem C5_scan_compatible_passthrough (b o : Buffer) (ct : String) :
    ((extractFormatFromContentType ct = "jpeg" ∨ extractFormatFromContentType ct = "png") →
      convertToRekognitionCompatible (.ok o) b ct
        = .ok ⟨b, extractFormatFromContentType ct, false⟩)
    ∧ (extractFormatFromContentType ct ≠ "jpeg" → extractFormatFromContentType ct ≠ "png" →
      convertToRekognitionCompatible (.ok o) b ct = .ok ⟨o, "png", true⟩) := by
  constructor
  · intro h
    have hc : REKOGNITION_COMPATIBLE_FORMATS.contains (extractFormatFromContentType ct)
        = true := by
      rcases h with h | h <;> rw [h] <;> rfl
    unfold convertToRekognitionCompatible
    rw [if_pos hc]
  · intro h1 h2
    have hc : REKOGNITION_COMPATIBLE_FORMATS.contains (extractFormatFromContentType ct)
        = false := by
      simp only [REKOGNITION_COMPATIBLE_FORMATS, List.contains_cons, List.contains_nil,
        Bool.or_false, Bool.or_eq_false_iff, beq_eq_false_iff_ne, ne_eq]
      exact ⟨h1, h2⟩
    unfold convertToRekognitionCompatible
    rw [if_neg (by rw [hc]; exact Bool.false_ne_true)]

/-- C5 (witness): one input in each class — a declared `image/png` is passed
through unchanged with `converted = false`, a declared `image/webp` is
replaced by the png-conversion output with `converted = true`. -/
theorem C5_scan_compatible_passthrough_witness :
    convertToRekognitionCompatible (.ok [5]) [4] "image/png" = .ok ⟨[4], "png", false⟩
    ∧ convertToRekognitionCompatible (.ok [5]) [4] "image/webp" = .ok ⟨[5], "png", true⟩ :=
  ⟨(C5_scan_compatible_passthrough [4] [5] "image/png").1 (Or.inr rfl),
   (C5_scan_compatible_passthrough [4] [5] "image/webp").2 (by decide) (by decide)⟩

/-- C9 (counterexample): a caller-supplied filename without an extension is
published unchanged — the handler uploads to Backblaze under the key
`photo`, which does not end in `.webp`. -/
theorem C9_cx_extensionless_filename :
    (Handler.handler
      ⟨fun _ => [1], .ok [2], ⟨none, .ok [], none, none⟩, "t", .ok [3], none, "cdn"⟩
      ⟨some "AA", some "photo", some "image/webp"⟩).2
      = [.s3Put "t" [2], .rekDetectModeration "t", .s3Delete "t",
         .backblazePut "photo" [1] "image/webp"]
    ∧ endsWithWebp "photo" = false :=
  ⟨rfl, rfl⟩

/-- C9 (amended): when the caller-supplied filename matches the extension
pattern (a final dot followed by at least one character that is neither a
dot nor a slash), the rewritten filename ends in `.webp`; a filename without
such an extension is left entirely unchanged. -/
theorem C9_extension_rewrite (f : String) :
    (hasFileExtension f = true → ".webp".data <:+ (replaceExtWithWebp f).data)
    ∧ (hasFileExtension f = false → replaceExtWithWebp f = f) := by
  constructor
  · intro h
    unfold hasFileExtension at h
    unfold replaceExtWithWebp
    cases hr : revExtOf f.data.reverse with
    | none => rw [hr] at h; simp at h
    | some rest =>
      simp only [hr]
      exact List.suffix_append rest.reverse ".webp".data
  · intro h
    unfold hasFileExtension at h
    unfold replaceExtWithWebp
    cases hr : revExtOf f.data.reverse with
    | none => rfl
    | some rest => rw [hr] at h; simp at h

/-- C9 (witness): the filename `a.jpg` is rewritten to end in `.webp`, the
extensionless filename `photo` stays unchanged. -/
theorem C9_extension_rewrite_witness :
    (".webp".data <:+ (replaceExtWithWebp "a.jpg").data)
    ∧ replaceExtWithWebp "photo" = "photo" :=
  ⟨(C9_extension_rewrite "a.jpg").1 rfl, (C9_extension_rewrite "photo").2 rfl⟩

/-- C1: whenever the moderation scan's verdict has `passed = false`, the
handler never issues the Backblaze upload; and whenever the request reached
the scan stage (all prior validations passed and the scan-compatibility
conversion succeeded), the handler returns the 400 `MODERATION_FAILED`
response carrying the verdict's label list and confidence. -/
theorem C1_moderation_short_circuit (env : HandlerEnv) (body : UploadRequest)
    (hpass : scanVerdictPassed env.scanEnv = false) :
    hasBackblazePut (Handler.handler env body).2 = false
    ∧ (∀ r, strFalsy body.imageData = false → strFalsy body.filename = false →
        isSupportedFormat (effectiveContentType body) = true →
        (env.decode (body.imageData.getD "")).length ≤ maxSizeBytes →
        convertToRekognitionCompatible env.pngConv (env.decode (body.imageData.getD ""))
          (effectiveContentType body) = .ok r →
        (Handler.handler env body).1
          = ⟨400, false, "Image failed moderation checks", some "MODERATION_FAILED",
              .moderation
                (scanImageForModeration env.scanEnv env.tempKey r.buffer).1.moderationLabels
                (scanImageForModeration env.scanEnv env.tempKey r.buffer).1.confidence⟩) := by
  constructor
  · unfold Handler.handler
    split
    next => rfl
    next =>
      split
      next => rfl
      next =>
        split
        next => rfl
        next =>
          split
          next => rfl
          next rekImage heq =>
            split
            next => exact scan_no_backblaze env.scanEnv env.tempKey rekImage.buffer
            next hmod =>
              exfalso
              apply hmod
              rw [scan_passed_eq, hpass]
              rfl
  · intro r h1 h2 h3 h4 heq
    unfold Handler.handler
    split
    next hcond => rw [h1, h2] at hcond; exact absurd hcond (by decide)
    next =>
      split
      next hcond => rw [h3] at hcond; exact absurd hcond (by decide)
      next =>
        split
        next hcond => exact absurd hcond (Nat.not_lt.mpr h4)
        next =>
          split
          next e herr => rw [heq] at herr; cases herr
          next rekImage hok =>
            rw [heq] at hok
            injection hok with hok
            subst hok
            split
            next => rfl
            next hmod =>
              exfalso
              apply hmod
              rw [scan_passed_eq, hpass]
              rfl

/-- C1 (witness): a concrete request whose scan returns an Explicit Nudity
label at confidence 91 — the handler answers `MODERATION_FAILED` with that
label and confidence, and the trace holds no Backblaze upload. -/
theorem C1_moderation_short_circuit_witness :
    hasBackblazePut (Handler.handler
      ⟨fun _ => [1], .ok [2], ⟨none, .ok [⟨"Explicit Nudity", 91⟩], none, none⟩,
       "t", .ok [3], none, "cdn"⟩
      ⟨some "AA", some "a.png", some "image/png"⟩).2 = false
    ∧ (Handler.handler
      ⟨fun _ => [1], .ok [2], ⟨none, .ok [⟨"Explicit Nudity", 91⟩], none, none⟩,
       "t", .ok [3], none, "cdn"⟩
      ⟨some "AA", some "a.png", some "image/png"⟩).1
      = ⟨400, false, "Image failed moderation checks", some "MODERATION_FAILED",
          .moderation ["Explicit Nudity"] 91⟩ := by
  have h := C1_moderation_short_circuit
    ⟨fun _ => [1], .ok [2], ⟨none, .ok [⟨"Explicit Nudity", 91⟩], none, none⟩,
     "t", .ok [3], none, "cdn"⟩
    ⟨some "AA", some "a.png", some "image/png"⟩ rfl
  refine ⟨h.1, ?_⟩
  rw [h.2 ⟨[1], "png", false⟩ rfl rfl rfl (by decide) rfl]
  rfl

/-- C6 (counterexample): for a declared `image/webp` input the
scan-compatibility conversion does convert — it returns the png-conversion
output with `converted = true`, so the two boundary conversions do not both
report `converted = false`. -/
theorem C6_cx_webp_scan_conversion :
    convertToRekognitionCompatible (.ok [9]) [1] "image/webp"
      = .ok ⟨[9], "png", true⟩ :=
  rfl

/-- C6 (amended): for a webp input that passes moderation, the storage-side
conversion is a pass-through (`converted = false`, same buffer), the
scan-side conversion produces a png buffer with `converted = true` that is
used only for scanning, and the Backblaze upload receives exactly the
original decoded bytes. -/
theorem C6_webp_original_bytes_to_storage (env : HandlerEnv) (body : UploadRequest)
    (o : Buffer)
    (hct : effectiveContentType body = "image/webp")
    (h1 : strFalsy body.imageData = false) (h2 : strFalsy body.filename = false)
    (h4 : (env.decode (body.imageData.getD "")).length ≤ maxSizeBytes)
    (hpng : env.pngConv = .ok o)
    (hpass : scanVerdictPassed env.scanEnv = true) :
    convertToWebPIfNeeded env.webpConv (env.decode (body.imageData.getD ""))
      (effectiveContentType body)
      = .ok ⟨env.decode (body.imageData.getD ""), "webp", false⟩
    ∧ convertToRekognitionCompatible env.pngConv (env.decode (body.imageData.getD ""))
      (effectiveContentType body) = .ok ⟨o, "png", true⟩
    ∧ (Handler.handler env body).2
      = (scanImageForModeration env.scanEnv env.tempKey o).2
        ++ [Event.backblazePut (replaceExtWithWebp (body.filename.getD ""))
             (env.decode (body.imageData.getD "")) "image/webp"] := by
  have hA : convertToWebPIfNeeded env.webpConv (env.decode (body.imageData.getD ""))
      (effectiveContentType body)
      = .ok ⟨env.decode (body.imageData.getD ""), "webp", false⟩ := by
    rw [hct]
    rfl
  have hB : convertToRekognitionCompatible env.pngConv (env.decode (body.imageData.getD ""))
      (effectiveContentType body) = .ok ⟨o, "png", true⟩ := by
    rw [hct, hpng]
    rfl
  refine ⟨hA, hB, ?_⟩
  unfold Handler.handler
  split
  next hcond => rw [h1, h2] at hcond; exact absurd hcond (by decide)
  next =>
    split
    next hcond => rw [hct] at hcond; exact absurd hcond (by decide)
    next =>
      split
      next hcond => exact absurd hcond (Nat.not_lt.mpr h4)
      next =>
        split
        next e herr => rw [hB] at herr; cases herr
        next rekImage hok =>
          rw [hB] at hok
          injection hok with hok
          subst hok
          split
          next hmod =>
            exfalso
            rw [scan_passed_eq, hpass] at hmod
            exact absurd hmod (by decide)
          next =>
            split
            next e herr => rw [hA] at herr; cases herr
            next webpImage hokw =>
              rw [hA] at hokw
              injection hokw with hokw
              subst hokw
              split
              next => rfl
              next => rfl

/-- C6 (witness): a concrete webp request passing moderation — the trace
stages the converted png buffer for scanning, deletes it, and uploads the
original bytes to Backblaze. -/
theorem C6_webp_original_bytes_to_storage_witness :
    (Handler.handler
      ⟨fun _ => [1], .ok [2], ⟨none, .ok [], none, none⟩, "t", .ok [99], none, "cdn"⟩
      ⟨some "AA", some "pic.png", some "image/webp"⟩).2
      = [.s3Put "t" [2], .rekDetectModeration "t", .s3Delete "t",
         .backblazePut "pic.webp" [1] "image/webp"] := by
  rw [(C6_webp_original_bytes_to_storage
    ⟨fun _ => [1], .ok [2], ⟨none, .ok [], none, none⟩, "t", .ok [99], none, "cdn"⟩
    ⟨some "AA", some "pic.png", some "image/webp"⟩ [2]
    rfl rfl rfl (by decide) rfl rfl).2.2]
  rfl

/-- C10: a request that omits the optional `contentType` field is not
rejected for that reason — the handler defaults the declared content type to
`image/jpeg` (format tag `jpeg`), and the response can never be
`VALIDATION_ERROR` or `UNSUPPORTED_FORMAT`. -/
theorem C10_omitted_content_type_defaults (env : HandlerEnv) (body : UploadRequest)
    (hct : body.contentType = none)
    (h1 : strFalsy body.imageData = false) (h2 : strFalsy body.filename = false) :
    effectiveContentType body = "image/jpeg"
    ∧ extractFormatFromContentType (effectiveContentType body) = "jpeg"
    ∧ (Handler.handler env body).1.error ≠ some "VALIDATION_ERROR"
    ∧ (Handler.handler env body).1.error ≠ some "UNSUPPORTED_FORMAT" := by
  have hect : effectiveContentType body = "image/jpeg" := by
    unfold Handler.effectiveContentType
    rw [hct]
  have herr : (Handler.handler env body).1.error = some "FILE_TOO_LARGE"
      ∨ (Handler.handler env body).1.error = some "INTERNAL_ERROR"
      ∨ (Handler.handler env body).1.error = some "MODERATION_FAILED"
      ∨ (Handler.handler env body).1.error = none := by
    unfold Handler.handler
    split
    next hcond => rw [h1, h2] at hcond; exact absurd hcond (by decide)
    next =>
      split
      next hcond => rw [hect] at hcond; exact absurd hcond (by decide)
      next =>
        split
        next => exact Or.inl rfl
        next =>
          split
          next => exact Or.inr (Or.inl rfl)
          next rekImage heq =>
            split
            next => exact Or.inr (Or.inr (Or.inl rfl))
            next =>
              split
              next => exact Or.inr (Or.inl rfl)
              next webpImage heqw =>
                split
                next => exact Or.inr (Or.inl rfl)
                next => exact Or.inr (Or.inr (Or.inr rfl))
  refine ⟨hect, by rw [hect]; rfl, ?_, ?_⟩ <;>
    rcases herr with h | h | h | h <;> rw [h] <;> simp

/-- C10 (witness): a concrete request without a `contentType` field
processed as jpeg, its response neither `VALIDATION_ERROR` nor
`UNSUPPORTED_FORMAT`. -/
theorem C10_omitted_content_type_defaults_witness :
    effectiveContentType ⟨some "AA", some "a.png", none⟩ = "image/jpeg"
    ∧ (Handler.handler
        ⟨fun _ => [1], .ok [2], ⟨none, .ok [], none, none⟩, "t", .ok [3], none, "cdn"⟩
        ⟨some "AA", some "a.png", none⟩).1.error ≠ some "VALIDATION_ERROR"
    ∧ (Handler.handler
        ⟨fun _ => [1], .ok [2], ⟨none, .ok [], none, none⟩, "t", .ok [3], none, "cdn"⟩
        ⟨some "AA", some "a.png", none⟩).1.error ≠ some "UNSUPPORTED_FORMAT" := by
  have h := C10_omitted_content_type_defaults
    ⟨fun _ => [1], .ok [2], ⟨none, .ok [], none, none⟩, "t", .ok [3], none, "cdn"⟩
    ⟨some "AA", some "a.png", none⟩ rfl rfl rfl
  exact ⟨h.1, h.2.2.1, h.2.2.2⟩

end Theorems

end ImageLambda
